import Mathlib

/-!
Shallow embedding of the cache / validation / fetch-retry core of
`src/content.js` (a browser content script that fetches example sentences
from a dictionary API and caches them in IndexedDB).

Modelling conventions:
* JSON-shaped payloads are modelled structurally: a field that may be
  absent in JavaScript is an `Option`; fields of an API object that the
  script never reads are collected in an `extra` association list so that
  the "slimming" projection performed by `IndexedDBManager.save` is
  observable.
* The IndexedDB object store (keyed by `keyword`) is modelled as a list of
  rows; `store.put` upserts (the row with the same keyword is replaced).
* Timestamps (`Date.now()`) are naturals (milliseconds).  JavaScript's
  `now - timestamp >= EXPIRATION_TIME` agrees with truncated natural
  subtraction because `EXPIRATION_TIME > 0`.
* The shared mutable `state` object of the script is modelled explicitly
  where the embedded code touches it (`examples`, `apiDataFetched`,
  `error`), and effects (network fetches, backoff sleeps, IndexedDB
  reads) are recorded in an explicit trace.
-/

deriving instance DecidableEq for Except

namespace IK

/-- An example object of the remote API response
(`data[i].examples[j]` in `src/content.js`).  The five named fields are the
ones `IndexedDBManager.save` keeps when slimming; `extra` stands for all
other fields of the JSON object, which slimming drops. -/
structure Example where
  image_url : Option String
  sound_url : Option String
  sentence : Option String
  translation : Option String
  deck_name : Option String
  extra : List (String × String)
deriving DecidableEq

/-- One element of the `data` array of the API response
(`jsonData.data[i]` in `src/content.js`). -/
structure ResultItem where
  category_count : Option (List (String × Int))
  examples : Option (List Example)
  extra : List (String × String)
deriving DecidableEq

/-- The top-level API response object (`jsonData` in `src/content.js`).
An absent/null payload is `Option Payload = none` at use sites. -/
structure Payload where
  data : Option (List ResultItem)
deriving DecidableEq

/-- `validateApiResponse` (src/content.js lines 389-409), the pure part:
the four checks in order, first failure winning.  `none` as argument is a
falsy `jsonData` (the `!jsonData` check); note that an empty object `{}`
is truthy in JavaScript, hence is `some ⟨none⟩` here and passes the first
check. -/
def validateApiResponse : Option Payload → Option String
  | none => some "Not a valid JSON"
  | some jsonData =>
    match jsonData.data with
    | none => some "Missing required data fields"
    | some items =>
      match items with
      | [] => some "Missing required data fields"
      | first :: _ =>
        match first.examples with
        | none => some "Missing required data fields"
        | some _ =>
          match first.category_count with
          | none => some "Missing category count"
          | some categoryCount =>
            if categoryCount.all (fun kv => kv.2 == 0) then some "Blank API"
            else none

/-- The fields of the script's shared mutable `state` object that the
embedded core reads or writes. -/
structure ScriptState where
  examples : Option (List Example)
  apiDataFetched : Bool
  error : Bool
deriving DecidableEq

/-- `validateApiResponse` as the source actually runs it: line 390
(`state.error = false;`) mutates the shared state object before the pure
checks run.  Returns the updated state together with the reason. -/
def validateApiResponseRun (st : ScriptState) (jsonData : Option Payload) :
    ScriptState × Option String :=
  ({ st with error := false }, validateApiResponse jsonData)

/-! ## IndexedDB store -/

/-- `IndexedDBManager.MAX_ENTRIES`. -/
def MAX_ENTRIES : Nat := 100000000

/-- `IndexedDBManager.EXPIRATION_TIME` (10000 years in milliseconds). -/
def EXPIRATION_TIME : Nat := 30 * 24 * 60 * 60 * 1000 * 12 * 10000

/-- A row of the `dataStore` object store: `{ keyword, data, timestamp }`. -/
structure Row where
  keyword : String
  data : Payload
  timestamp : Nat
deriving DecidableEq

/-- `store.get(keyword)`: the row with the given primary key, if any. -/
def dbFind (db : List Row) (keyword : String) : Option Row :=
  db.find? (fun r => r.keyword == keyword)

/-- `IndexedDBManager.deleteEntry`: unconditional removal by key. -/
def deleteEntry (db : List Row) (keyword : String) : List Row :=
  db.filter (fun r => !(r.keyword == keyword))

/-- `store.put({keyword, data, timestamp})`: upsert by primary key. -/
def dbPut (db : List Row) (r : Row) : List Row :=
  r :: deleteEntry db r.keyword

/-- `IndexedDBManager.get` (src/content.js lines 113-148): returns `none`
when no row exists; when the row is expired or its stored payload fails
validation, deletes the row and returns `none`; otherwise returns the
stored payload.  Result: (store after the call, returned value). -/
def dbGet (db : List Row) (keyword : String) (now : Nat) :
    List Row × Option Payload :=
  match dbFind db keyword with
  | none => (db, none)
  | some result =>
    let isExpired := EXPIRATION_TIME ≤ now - result.timestamp
    let validationError := validateApiResponse (some result.data)
    if isExpired then (deleteEntry db keyword, none)
    else if validationError.isSome then (deleteEntry db keyword, none)
    else (db, some result.data)

/-- The slimming projection on one example
(`item.examples.map((example) => ({...}))` in `IndexedDBManager.save`):
keeps exactly `image_url`, `sound_url`, `sentence`, `translation`,
`deck_name`, drops everything else. -/
def slimExample (e : Example) : Example :=
  { image_url := e.image_url
    sound_url := e.sound_url
    sentence := e.sentence
    translation := e.translation
    deck_name := e.deck_name
    extra := [] }

/-- The slimming projection on one result item (`data.data.map((item) =>
...)` in `IndexedDBManager.save`): copies `category_count` when present,
maps `slimExample` over `examples` when present, drops all other fields. -/
def slimItem (item : ResultItem) : ResultItem :=
  { category_count := item.category_count
    examples := item.examples.map (fun exs => exs.map slimExample)
    extra := [] }

/-- The slimmed payload: `{ data: data.data.map(slimItem) }`. -/
def slimPayload (p : Payload) : Payload :=
  ⟨p.data.map (fun items => items.map slimItem)⟩

/-- Insertion of a row into a list sorted by ascending timestamp. -/
def insertByTimestamp (r : Row) : List Row → List Row
  | [] => [r]
  | x :: xs =>
    if r.timestamp ≤ x.timestamp then r :: x :: xs
    else x :: insertByTimestamp r xs

/-- `entries.sort((a, b) => a.timestamp - b.timestamp)`: ascending by
timestamp. -/
def sortByTimestamp : List Row → List Row
  | [] => []
  | x :: xs => insertByTimestamp x (sortByTimestamp xs)

/-- `IndexedDBManager.save` (src/content.js lines 183-254): validates the
raw payload (silent no-op when invalid), slims it, evicts the oldest
entries when the capacity bound is reached, and upserts the row with the
current timestamp. -/
def save (db : List Row) (keyword : String) (data : Option Payload)
    (now : Nat) : List Row :=
  match validateApiResponse data with
  | some _ => db
  | none =>
    match data with
    | none => db
    | some p =>
      match p.data with
      | none => db
      | some items =>
        let slimData : Payload := ⟨some (items.map slimItem)⟩
        let db1 :=
          if MAX_ENTRIES ≤ db.length then
            let sorted := sortByTimestamp db
            let entriesToDelete := sorted.take (db.length - MAX_ENTRIES + 1)
            entriesToDelete.foldl (fun d e => deleteEntry d e.keyword) db
          else db
        dbPut db1 ⟨keyword, slimData, now⟩

/-! ## Fetch pipeline (`getImmersionKitData`, `findExampleBySentence`) -/

/-- JavaScript `s.split(",")`: split on every comma, keeping empty pieces
(`"".split(",") = [""]`, `"a,".split(",") = ["a",""]`). -/
def splitCommaAux : List Char → List Char → List String
  | [], acc => [String.mk acc.reverse]
  | c :: cs, acc =>
    if c = ',' then String.mk acc.reverse :: splitCommaAux cs []
    else splitCommaAux cs (c :: acc)

/-- JavaScript `s.split(",")`. -/
def jsSplitComma (s : String) : List String :=
  splitCommaAux s.data []

/-- JavaScript `parseInt(s, 10)`: skip leading whitespace, optional sign,
then the longest prefix of decimal digits; `none` models `NaN`. -/
def jsParseInt (s : String) : Option Int :=
  let cs := s.data.dropWhile (fun c => c.isWhitespace)
  let signAndRest : Int × List Char :=
    match cs with
    | '-' :: rest => (-1, rest)
    | '+' :: rest => (1, rest)
    | _ => (1, cs)
  let ds := signAndRest.2.takeWhile (fun c => c.isDigit)
  if ds.isEmpty then none
  else
    some (signAndRest.1 *
      (ds.foldl (fun n c => n * 10 + (c.toNat - '0'.toNat)) 0 : Nat))

/-- The blacklist test of `getImmersionKitData` (src/content.js lines
288-291): `storedValue && storedValue.split(",").length > 1 &&
parseInt(storedValue.split(",")[1], 10) === 2`.  `none` is an absent
record; `some ""` is falsy in JavaScript. -/
def isBlacklistedVal (storedValue : Option String) : Bool :=
  match storedValue with
  | none => false
  | some s =>
    s != "" && decide (1 < (jsSplitComma s).length) &&
      (jsParseInt ((jsSplitComma s).getD 1 "") == some 2)

/-- Result of `await response.json()`: either the body failed to parse
(the promise rejected, message `msg`) or it parsed to a JSON value. -/
inductive JsonBody where
  | parseError (msg : String)
  | parsed (value : Option Payload)
deriving DecidableEq

/-- One outcome of `fetch(url)`: either the fetch promise itself rejected
(network failure) or an HTTP response with a status code arrived. -/
inductive FetchOutcome where
  | netError (msg : String)
  | httpResp (status : Nat) (body : JsonBody)
deriving DecidableEq

/-- `response.ok`: status in [200, 300). -/
def respOk (status : Nat) : Bool :=
  200 ≤ status && status < 300

/-- Effects performed by one `getImmersionKitData` call: number of
preference-store reads, number of IndexedDB `get` calls, number of
`fetch` calls, and the list of backoff waits (milliseconds). -/
structure Trace where
  prefReads : Nat
  dbReads : Nat
  fetches : Nat
  sleeps : List Nat
deriving DecidableEq

/-- The program state a `getImmersionKitData` call reads and writes: the
IndexedDB store plus the shared script-state fields. -/
structure PipeSt where
  db : List Row
  examples : Option (List Example)
  apiDataFetched : Bool
  error : Bool
deriving DecidableEq

/-- `maxRetries` in `getImmersionKitData`. -/
def maxRetries : Nat := 5

/-- The inner recursive `fetchData` of `getImmersionKitData`
(src/content.js lines 297-350), with the `attempt` counter of the
enclosing closure passed explicitly and the n-th `fetch` of the call
answered by `resp n`.  Each invocation re-opens IndexedDB and re-reads
the cache; on a cache hit with a nonempty `data` array it returns the
first result's examples; otherwise it fetches, and on a validation
failure below the retry bound it sleeps 2000 ms (awaited) and recurses
with `return fetchData()` — WITHOUT `await` (line 334).  The recursive
promise is therefore adopted as this call's result after the function
body has left both `try` blocks: a rejection of the recursive call
passes through every enclosing call unchanged, so the `Fetch error: `
wrap of the inner catch and the `state.error = true` of the outer catch
happen only in the one call in which the throw occurs.  `fuel` bounds
the recursion; every call site uses
`fuel = maxRetries - attempt`, which the `attempt + 1 < maxRetries`
guard keeps positive, so the fuel-exhaustion branch (which returns the
same exhaustion error as the bound-reached branch) is never taken. -/
def fetchDataFuel (resp : Nat → FetchOutcome) (searchVocab : String)
    (now : Nat) :
    Nat → Nat → PipeSt → Trace → Except String Unit × PipeSt × Trace
  | fuel, attempt, st, tr =>
    let found := dbFind st.db searchVocab
    let got := dbGet st.db searchVocab now
    let st1 : PipeSt :=
      { st with db := got.1
                error := if found.isSome then false else st.error }
    let tr1 : Trace := { tr with dbReads := tr.dbReads + 1 }
    match got.2.bind (fun cachedData => cachedData.data.bind List.head?) with
    | some first =>
      (Except.ok (),
       { st1 with examples := first.examples, apiDataFetched := true }, tr1)
    | none =>
      let tr2 : Trace := { tr1 with fetches := tr1.fetches + 1 }
      match resp tr1.fetches with
      | FetchOutcome.netError m =>
        (Except.error ("Fetch error: " ++ m), { st1 with error := true }, tr2)
      | FetchOutcome.httpResp status body =>
        if !respOk status then
          (Except.error
             ("Fetch error: " ++ ("HTTP error! status: " ++ toString status)),
           { st1 with error := true }, tr2)
        else
          match body with
          | JsonBody.parseError m =>
            (Except.error ("Fetch error: " ++ m),
             { st1 with error := true }, tr2)
          | JsonBody.parsed jsonData =>
            let st2 := { st1 with error := false }
            match validateApiResponse jsonData with
            | none =>
              match jsonData.bind (fun p => p.data.bind List.head?) with
              | some first =>
                (Except.ok (),
                 { st2 with
                     examples := first.examples
                     apiDataFetched := true
                     db := save st2.db searchVocab jsonData now }, tr2)
              | none => (Except.ok (), st2, tr2)
            | some validationError =>
              if attempt + 1 < maxRetries then
                match fuel with
                | 0 =>
                  (Except.error
                     ("Fetch error: " ++ ("Invalid API response after " ++
                        toString maxRetries ++ " attempts: " ++ validationError)),
                   { st2 with error := true }, tr2)
                | fuel' + 1 =>
                  let tr3 : Trace := { tr2 with sleeps := tr2.sleeps ++ [2000] }
                  fetchDataFuel resp searchVocab now fuel' (attempt + 1) st2 tr3
              else
                (Except.error
                   ("Fetch error: " ++ ("Invalid API response after " ++
                      toString maxRetries ++ " attempts: " ++ validationError)),
                 { st2 with error := true }, tr2)

/-- The search key: `exactSearch ? 「vocab」 : vocab`. -/
def searchKey (vocab : String) (exactSearch : Bool) : String :=
  if exactSearch then "「" ++ vocab ++ "」" else vocab

/-- `getImmersionKitData` (src/content.js lines 279-353).  `prefs` is the
chrome.storage preference store; note the blacklist check reads
`state.vocab` (`stateVocab`) while the search key is built from the
`vocab` parameter, exactly as in the source.  Returns the outcome (the
resolved/rejected promise), the final program state, and the effect
trace. -/
def getImmersionKitData (prefs : String → Option String)
    (resp : Nat → FetchOutcome) (vocab : String) (exactSearch : Bool)
    (stateVocab : String) (now : Nat) (st : PipeSt) :
    Except String Unit × PipeSt × Trace :=
  let searchVocab := searchKey vocab exactSearch
  let tr0 : Trace := { prefReads := 1, dbReads := 0, fetches := 0, sleeps := [] }
  let storedValue := prefs stateVocab
  if isBlacklistedVal storedValue then (Except.ok (), st, tr0)
  else fetchDataFuel resp searchVocab now maxRetries 0 st tr0

/-- The scan of `findExampleBySentence`: concatenate, over all result
items, the examples whose `sentence` field strictly equals the searched
sentence. -/
def collectMatches (items : List ResultItem) (sentence : String) :
    List Example :=
  items.foldl
    (fun matchingExamples d =>
      match d.examples with
      | some exs =>
        matchingExamples ++ exs.filter (fun e => e.sentence == some sentence)
      | none => matchingExamples)
    []

/-- `findExampleBySentence` (src/content.js lines 355-387): one remote
fetch (the response to its single URL is `resp`); every failure —
rejected fetch, non-2xx status, body that fails to parse — is swallowed
by the surrounding `catch` and `null` is returned, as it also is when
fewer than `occurrenceIndex + 1` exact matches exist. -/
def findExampleBySentence (resp : FetchOutcome) (sentence : String)
    (occurrenceIndex : Nat) : Option Example :=
  match resp with
  | FetchOutcome.netError _ => none
  | FetchOutcome.httpResp status body =>
    if !respOk status then none
    else
      match body with
      | JsonBody.parseError _ => none
      | JsonBody.parsed jsonData =>
        match jsonData with
        | none => none
        | some p =>
          match p.data with
          | none => none
          | some items =>
            let matchingExamples := collectMatches items sentence
            if occurrenceIndex < matchingExamples.length then
              matchingExamples.get? occurrenceIndex
            else none

/-- The message with which the fetch layer of `fetchData` throws before
any wrapping: `some` exactly when the outcome is a transport-layer
failure (rejected fetch, non-2xx response, or malformed JSON body). -/
def transportFailBase : FetchOutcome → Option String
  | FetchOutcome.netError m => some m
  | FetchOutcome.httpResp status body =>
    if respOk status then
      match body with
      | JsonBody.parseError m => some m
      | JsonBody.parsed _ => none
    else some ("HTTP error! status: " ++ toString status)

/-- Store states reachable from the empty store through the operations
the script performs on `dataStore`: `save`, the self-cleaning `get`, and
`deleteEntry`. -/
inductive Reachable : List Row → Prop
  | init : Reachable []
  | save_step (db : List Row) (k : String) (p : Option Payload) (now : Nat) :
      Reachable db → Reachable (save db k p now)
  | get_step (db : List Row) (k : String) (now : Nat) :
      Reachable db → Reachable (dbGet db k now).1
  | delete_step (db : List Row) (k : String) :
      Reachable db → Reachable (deleteEntry db k)

/-! ## Sample data for concrete witnesses -/

/-- A fully populated example object, with one extra (to-be-slimmed)
field. -/
def exampleA : Example :=
  ⟨some "https://img/1.jpg", some "https://snd/1.mp3", some "猫だ",
   some "It is a cat", some "Anime Deck", [("author", "someone")]⟩

/-- A payload that passes validation. -/
def pValidC : Payload :=
  ⟨some [⟨some [("anime", 1)], some [exampleA], [("found", "yes")]⟩]⟩

/-- The "blank API" payload of the spec's scenario:
`{data:[{category_count:{a:0,b:0},examples:[{sentence:"x"}]}]}`. -/
def pBlankC : Payload :=
  ⟨some [⟨some [("a", 0), ("b", 0)],
         some [⟨none, none, some "x", none, none, []⟩], []⟩]⟩

/-- A payload that passes validation although its first result has an
empty `examples` array (an empty array is truthy in JavaScript). -/
def pNoExamplesC : Payload :=
  ⟨some [⟨some [("a", 1)], some [], []⟩]⟩

/-- An initial program state with an empty store. -/
def st0 : PipeSt := ⟨[], none, false, false⟩

/-- A remote source that always answers 200 with the blank payload. -/
def respAllBlank : Nat → FetchOutcome :=
  fun _ => FetchOutcome.httpResp 200 (JsonBody.parsed (some pBlankC))

/-- A remote source whose first answer fails validation and whose second
fetch rejects at the network layer. -/
def respFailAt1 : Nat → FetchOutcome :=
  fun n =>
    if n = 0 then FetchOutcome.httpResp 200 (JsonBody.parsed (some pBlankC))
    else FetchOutcome.netError "boom"

/-- The store obtained by saving the valid payload into the empty store
at time 7. -/
def savedValidDb : List Row := save [] "k" (some pValidC) 7

/-- The single row of `savedValidDb`: key "k", the slimmed valid payload,
timestamp 7. -/
def savedValidRow : Row :=
  ⟨"k", ⟨some [slimItem ⟨some [("anime", 1)], some [exampleA],
               [("found", "yes")]⟩]⟩, 7⟩

/-- An empty preference store. -/
def prefsEmpty : String → Option String := fun _ => none

/-- A preference store blacklisting every term (flag 2). -/
def prefsBlacklist : String → Option String := fun _ => some "ねこです,2"

end IK

namespace IK

/-! ## Helper lemmas about the store -/

theorem EXPIRATION_TIME_pos : 0 < EXPIRATION_TIME := by
  norm_num [EXPIRATION_TIME]

theorem dbFind_deleteEntry_self (db : List Row) (k : String) :
    dbFind (deleteEntry db k) k = none := by
  rw [dbFind, List.find?_eq_none]
  intro x hx
  have h2 := (List.mem_filter.mp hx).2
  simp only [Bool.not_eq_true'] at h2
  simp [h2]

theorem dbGet_not_found (db : List Row) (k : String) (now : Nat)
    (h : dbFind db k = none) : dbGet db k now = (db, none) := by
  simp [dbGet, h]

/-- The structural characterization of a payload that passes
`validateApiResponse`. -/
theorem validate_none_iff (p : Payload) :
    validateApiResponse (some p) = none ↔
      ∃ first rest exs cc,
        p.data = some (first :: rest) ∧ first.examples = some exs ∧
        first.category_count = some cc ∧
        cc.all (fun kv => kv.2 == 0) = false := by
  obtain ⟨d⟩ := p
  constructor
  · intro h
    cases d with
    | none => simp [validateApiResponse] at h
    | some items =>
      cases items with
      | nil => simp [validateApiResponse] at h
      | cons first rest =>
        cases he : first.examples with
        | none => simp [validateApiResponse, he] at h
        | some exs =>
          cases hc : first.category_count with
          | none => simp [validateApiResponse, he, hc] at h
          | some cc =>
            by_cases hz : cc.all (fun kv => kv.2 == 0)
            · simp [validateApiResponse, he, hc, hz] at h
            · exact ⟨first, rest, exs, cc, rfl, he, hc, by simpa using hz⟩
  · rintro ⟨first, rest, exs, cc, hd, he, hc, hz⟩
    simp only [Payload.mk.injEq] at hd
    subst hd
    simp [validateApiResponse, he, hc, hz]

theorem validate_slim (first : ResultItem) (rest : List ResultItem)
    (exs : List Example) (cc : List (String × Int))
    (he : first.examples = some exs) (hc : first.category_count = some cc)
    (hz : cc.all (fun kv => kv.2 == 0) = false) :
    validateApiResponse (some ⟨some ((first :: rest).map slimItem)⟩) = none := by
  rw [validate_none_iff]
  exact ⟨slimItem first, rest.map slimItem, exs.map slimExample, cc,
    by simp, by simp [slimItem, he], by simp [slimItem, hc], hz⟩

/-! ## Claim theorems: validator (C2, C3) and store (C5) -/

/-- C2, counterexample: the claim asserts `validate({})` yields the
"not valid" (absent/empty payload) reason, but an empty object is truthy
in JavaScript, so `{}` passes the `!jsonData` check and fails the second
check instead, yielding "Missing required data fields". -/
theorem c2_validator_scenarios_counterexample :
    validateApiResponse (some ⟨none⟩) = some "Missing required data fields" ∧
    some "Missing required data fields" ≠ some "Not a valid JSON" := by
  constructor
  · rfl
  · decide

/-- C2, amended: the four checks run in order with first failure winning;
`validate(null)` → "Not a valid JSON"; `validate({})` → "Missing required
data fields" (not "Not a valid JSON": an empty object is truthy);
`validate({data:[{category_count:{a:0,b:0},examples:[{sentence:"x"}]}]})`
→ "Blank API"; `validate({data:[{category_count:{a:1},examples:
[{sentence:"x"}]}]})` → none (valid); a first result with examples but no
category count → "Missing category count". -/
theorem c2_validator_scenarios_amended :
    validateApiResponse none = some "Not a valid JSON" ∧
    validateApiResponse (some ⟨none⟩) = some "Missing required data fields" ∧
    validateApiResponse (some ⟨some []⟩) = some "Missing required data fields" ∧
    validateApiResponse (some pBlankC) = some "Blank API" ∧
    validateApiResponse
      (some ⟨some [⟨some [("a", 1)],
                   some [⟨none, none, some "x", none, none, []⟩], []⟩]⟩) =
      none ∧
    validateApiResponse (some ⟨some [⟨none, some [], []⟩]⟩) =
      some "Missing category count" := by
  refine ⟨rfl, rfl, rfl, ?_, rfl, rfl⟩
  decide

/-- C3, counterexample: the claim asserts calling the validator has no
side effect on any other program state ("no shared error flag is
written"), but line 390 of src/content.js writes `state.error = false`:
starting from a state whose error flag is set, one interleaved
`validateApiResponse` call changes the state. -/
theorem c3_validator_pure_counterexample :
    (validateApiResponseRun ⟨none, false, true⟩ none).1 ≠
      (⟨none, false, true⟩ : ScriptState) := by
  decide

/-- C3, amended: the returned reason of `validateApiResponse` depends
only on the payload (not on the program state), and its only side effect
is clearing the shared `state.error` flag: `examples` and
`apiDataFetched` are untouched and `error` is unconditionally false
afterwards. -/
theorem c3_validator_state_effect (s₁ s₂ : ScriptState) (p : Option Payload) :
    (validateApiResponseRun s₁ p).2 = (validateApiResponseRun s₂ p).2 ∧
    (validateApiResponseRun s₁ p).2 = validateApiResponse p ∧
    (validateApiResponseRun s₁ p).1.examples = s₁.examples ∧
    (validateApiResponseRun s₁ p).1.apiDataFetched = s₁.apiDataFetched ∧
    (validateApiResponseRun s₁ p).1.error = false := by
  refine ⟨rfl, rfl, rfl, rfl, rfl⟩

/-- C5: `save` with a payload that fails validation is a silent no-op:
no error is raised (the promise resolves) and the store — every row,
including the row for that key — is unchanged. -/
theorem c5_put_invalid_noop (db : List Row) (k : String) (p : Option Payload)
    (now : Nat) (h : validateApiResponse p ≠ none) :
    save db k p now = db := by
  unfold save
  cases hv : validateApiResponse p with
  | none => exact absurd hv h
  | some r => rfl

/-- C5, witness: saving the blank payload over a nonempty store leaves
the store intact. -/
theorem c5_put_invalid_noop_witness :
    save [⟨"a", pValidC, 3⟩] "k" (some pBlankC) 9 = [⟨"a", pValidC, 3⟩] :=
  c5_put_invalid_noop [⟨"a", pValidC, 3⟩] "k" (some pBlankC) 9 (by decide)

/-- C4: `get` semantics.  With no row, `get` returns absent and leaves
the store alone.  With a row that is expired (`EXPIRATION_TIME ≤ now -
writtenAt`) or whose stored payload fails the validator, `get` returns
absent and the resulting store no longer contains the key.  Otherwise
`get` returns the stored payload and changes nothing.  In particular a
valid entry written at `t` is still returned at `t + EXPIRATION_TIME - 1`
and is absent (and deleted) at `t + EXPIRATION_TIME`. -/
theorem c4_get_spec (db : List Row) (k : String) (now : Nat) :
    (dbFind db k = none → dbGet db k now = (db, none)) ∧
    (∀ r, dbFind db k = some r →
      ((EXPIRATION_TIME ≤ now - r.timestamp ∨
          validateApiResponse (some r.data) ≠ none) →
        (dbGet db k now).2 = none ∧ dbFind (dbGet db k now).1 k = none) ∧
      (now - r.timestamp < EXPIRATION_TIME →
          validateApiResponse (some r.data) = none →
        dbGet db k now = (db, some r.data)) ∧
      (validateApiResponse (some r.data) = none →
        (dbGet db k (r.timestamp + EXPIRATION_TIME - 1)).2 = some r.data ∧
        (dbGet db k (r.timestamp + EXPIRATION_TIME)).2 = none ∧
        dbFind (dbGet db k (r.timestamp + EXPIRATION_TIME)).1 k = none)) := by
  have hpos := EXPIRATION_TIME_pos
  refine ⟨fun h => dbGet_not_found db k now h, fun r hr => ⟨?_, ?_, ?_⟩⟩
  · intro hbad
    rcases hbad with hexp | hval
    · simp [dbGet, hr, hexp, dbFind_deleteEntry_self]
    · by_cases hexp : EXPIRATION_TIME ≤ now - r.timestamp
      · simp [dbGet, hr, hexp, dbFind_deleteEntry_self]
      · have : (validateApiResponse (some r.data)).isSome := by
          cases hv : validateApiResponse (some r.data) with
          | none => exact absurd hv hval
          | some m => simp
        simp [dbGet, hr, hexp, this, dbFind_deleteEntry_self]
  · intro hfresh hval
    have hexp : ¬ EXPIRATION_TIME ≤ now - r.timestamp := by omega
    simp [dbGet, hr, hexp, hval]
  · intro hval
    refine ⟨?_, ?_, ?_⟩
    · have hexp : ¬ EXPIRATION_TIME ≤ r.timestamp + EXPIRATION_TIME - 1 - r.timestamp := by
        omega
      simp [dbGet, hr, hexp, hval]
    · have hexp : EXPIRATION_TIME ≤ r.timestamp + EXPIRATION_TIME - r.timestamp := by
        omega
      simp [dbGet, hr, hexp]
    · have hexp : EXPIRATION_TIME ≤ r.timestamp + EXPIRATION_TIME - r.timestamp := by
        omega
      simp [dbGet, hr, hexp, dbFind_deleteEntry_self]

/-- C4, witness: a store with one valid row written at time 3: a lookup
with a different key misses; the row is returned while fresh and deleted
exactly when its age reaches the TTL. -/
theorem c4_get_spec_witness :
    dbGet [⟨"w", pValidC, 3⟩] "other" 3 = ([⟨"w", pValidC, 3⟩], none) ∧
    dbGet [⟨"w", pValidC, 3⟩] "w" 7 = ([⟨"w", pValidC, 3⟩], some pValidC) ∧
    (dbGet [⟨"w", pValidC, 3⟩] "w" (3 + EXPIRATION_TIME - 1)).2 = some pValidC ∧
    (dbGet [⟨"w", pValidC, 3⟩] "w" (3 + EXPIRATION_TIME)).2 = none ∧
    dbFind (dbGet [⟨"w", pValidC, 3⟩] "w" (3 + EXPIRATION_TIME)).1 "w" = none := by
  refine ⟨(c4_get_spec [⟨"w", pValidC, 3⟩] "other" 3).1 (by decide),
    ((c4_get_spec [⟨"w", pValidC, 3⟩] "w" 7).2 ⟨"w", pValidC, 3⟩
      (by decide)).2.1 (by norm_num [EXPIRATION_TIME]) (by decide), ?_⟩
  have h := ((c4_get_spec [⟨"w", pValidC, 3⟩] "w" 0).2 ⟨"w", pValidC, 3⟩
    (by decide)).2.2 (by decide)
  exact h

/-! ## Roundtrip and reachability helpers -/

theorem dbGet_dbPut_fresh (db : List Row) (k : String) (d : Payload)
    (ts now : Nat) (hv : validateApiResponse (some d) = none)
    (hexp : ¬ EXPIRATION_TIME ≤ now - ts) :
    dbGet (dbPut db ⟨k, d, ts⟩) k now = (dbPut db ⟨k, d, ts⟩, some d) := by
  have hfind : dbFind (dbPut db ⟨k, d, ts⟩) k = some ⟨k, d, ts⟩ := by
    simp [dbFind, dbPut]
  simp [dbGet, hfind, hexp, hv]

theorem mem_of_mem_deleteEntry {r : Row} {db : List Row} {k : String}
    (h : r ∈ deleteEntry db k) : r ∈ db :=
  (List.mem_filter.mp h).1

theorem mem_of_mem_dbGet {r : Row} (db : List Row) (k : String) (now : Nat)
    (h : r ∈ (dbGet db k now).1) : r ∈ db := by
  unfold dbGet at h
  cases hf : dbFind db k with
  | none => rw [hf] at h; exact h
  | some row =>
    rw [hf] at h
    by_cases hexp : EXPIRATION_TIME ≤ now - row.timestamp
    · simp only [if_pos hexp] at h
      exact mem_of_mem_deleteEntry h
    · simp only [if_neg hexp] at h
      by_cases hval : (validateApiResponse (some row.data)).isSome
      · simp only [if_pos hval] at h
        exact mem_of_mem_deleteEntry h
      · simp only [if_neg hval] at h
        exact h

theorem mem_of_mem_evict (l : List Row) (db : List Row) (r : Row)
    (h : r ∈ l.foldl (fun d e => deleteEntry d e.keyword) db) : r ∈ db := by
  induction l generalizing db with
  | nil => simpa using h
  | cons e es ih => exact mem_of_mem_deleteEntry (ih (deleteEntry db e.keyword) h)

theorem mem_save_cases (db : List Row) (k : String) (p : Option Payload)
    (now : Nat) (r : Row) (h : r ∈ save db k p now) :
    r ∈ db ∨
      (validateApiResponse p = none ∧ ∃ p' items, p = some p' ∧
        p'.data = some items ∧ r = ⟨k, ⟨some (items.map slimItem)⟩, now⟩) := by
  cases p with
  | none => left; simpa [save] using h
  | some p' =>
    cases hv : validateApiResponse (some p') with
    | some m => left; simpa [save, hv] using h
    | none =>
      cases hd : p'.data with
      | none => left; simpa [save, hv, hd] using h
      | some items =>
        simp only [save, hv, hd, dbPut] at h
        rcases List.mem_cons.mp h with rfl | h2
        · exact Or.inr ⟨rfl, p', items, rfl, hd, rfl⟩
        · left
          have h3 := mem_of_mem_deleteEntry h2
          by_cases hlen : MAX_ENTRIES ≤ db.length
          · rw [if_pos hlen] at h3
            exact mem_of_mem_evict _ _ _ h3
          · rw [if_neg hlen] at h3
            exact h3

/-! ## Claim theorems: roundtrip (C6) and invariant (C7) -/

/-- C6: for a payload `p` that passes validation, `save` followed by
`get` with the same key returns the slimmed payload: the stored first
result's examples are the slimmed projection (exactly `image_url`,
`sound_url`, `sentence`, `translation`, `deck_name`) of `p`'s first
result's examples. -/
theorem c6_roundtrip (db : List Row) (k : String) (p : Payload) (now : Nat)
    (h : validateApiResponse (some p) = none) :
    ∃ first rest,
      p.data = some (first :: rest) ∧
      (dbGet (save db k (some p) now) k now).2 =
        some ⟨some (slimItem first :: rest.map slimItem)⟩ ∧
      (slimItem first).examples =
        first.examples.map (fun exs => exs.map slimExample) ∧
      ∀ e : Example, slimExample e =
        ⟨e.image_url, e.sound_url, e.sentence, e.translation, e.deck_name, []⟩ := by
  obtain ⟨first, rest, exs, cc, hd, he, hc, hz⟩ := (validate_none_iff p).mp h
  refine ⟨first, rest, hd, ?_, rfl, fun e => rfl⟩
  have hv := validate_slim first rest exs cc he hc hz
  have hexp : ¬ EXPIRATION_TIME ≤ now - now := by
    have := EXPIRATION_TIME_pos; omega
  have hsave : save db k (some p) now =
      dbPut (if MAX_ENTRIES ≤ db.length then
               ((sortByTimestamp db).take (db.length - MAX_ENTRIES + 1)).foldl
                 (fun d e => deleteEntry d e.keyword) db
             else db)
        ⟨k, ⟨some ((first :: rest).map slimItem)⟩, now⟩ := by
    simp [save, h, hd]
  rw [hsave, dbGet_dbPut_fresh _ _ _ _ _ (by simpa using hv) hexp]
  simp

/-- C6, witness: the roundtrip at the concrete valid payload. -/
theorem c6_roundtrip_witness :
    ∃ first rest,
      pValidC.data = some (first :: rest) ∧
      (dbGet (save [] "q" (some pValidC) 7) "q" 7).2 =
        some ⟨some (slimItem first :: rest.map slimItem)⟩ ∧
      (slimItem first).examples =
        first.examples.map (fun exs => exs.map slimExample) ∧
      ∀ e : Example, slimExample e =
        ⟨e.image_url, e.sound_url, e.sentence, e.translation, e.deck_name, []⟩ :=
  c6_roundtrip [] "q" pValidC 7 (by decide)

/-- C7, counterexample: the claim asserts every persisted payload has at
least one example in its first result, but a payload whose first result
has `examples: []` (an empty array is truthy in JavaScript) passes
validation and is persisted with zero examples. -/
theorem c7_invariant_counterexample :
    Reachable (save [] "k" (some pNoExamplesC) 0) ∧
    ∃ r ∈ save [] "k" (some pNoExamplesC) 0,
      ∃ first rest, r.data.data = some (first :: rest) ∧
        first.examples = some [] := by
  refine ⟨Reachable.save_step [] "k" (some pNoExamplesC) 0 Reachable.init, ?_⟩
  refine ⟨⟨"k", ⟨some [⟨some [("a", 1)], some [], []⟩]⟩, 0⟩, ?_, ?_⟩
  · decide
  · exact ⟨⟨some [("a", 1)], some [], []⟩, [], rfl, rfl⟩

/-- C7, amended: in every reachable store state, every persisted row was
written from a source payload that passed validation, its persisted
payload is the slimmed projection of that source, and the persisted
payload still passes validation (so its first result still has an
`examples` field and a non-all-zero category count) — but it need not
have at least one example in its first result. -/
theorem c7_invariant_amended (db : List Row) (h : Reachable db) :
    ∀ r ∈ db, ∃ src : Payload,
      validateApiResponse (some src) = none ∧ r.data = slimPayload src ∧
      validateApiResponse (some r.data) = none := by
  induction h with
  | init => intro r hr; simp at hr
  | save_step db k p now hdb ih =>
    intro r hr
    rcases mem_save_cases db k p now r hr with hmem | ⟨hv, p', items, rfl, hd, rfl⟩
    · exact ih r hmem
    · refine ⟨p', hv, by simp [slimPayload, hd], ?_⟩
      obtain ⟨first, rest, exs, cc, hd2, he, hc, hz⟩ := (validate_none_iff p').mp hv
      rw [hd] at hd2
      injection hd2 with hitems
      subst hitems
      exact validate_slim first rest exs cc he hc hz
  | get_step db k now hdb ih =>
    intro r hr
    exact ih r (mem_of_mem_dbGet db k now hr)
  | delete_step db k hdb ih =>
    intro r hr
    exact ih r (mem_of_mem_deleteEntry hr)

/-- C7, witness: the invariant evaluated on the concrete reachable store
holding one slimmed valid entry. -/
theorem c7_invariant_amended_witness :
    ∃ src : Payload,
      validateApiResponse (some src) = none ∧
      savedValidRow.data = slimPayload src ∧
      validateApiResponse (some savedValidRow.data) = none :=
  c7_invariant_amended savedValidDb
    (Reachable.save_step [] "k" (some pValidC) 7 Reachable.init)
    savedValidRow (by decide)

/-! ## Claim theorem: blacklist short-circuit (C8) -/

/-- C8: when the preference record for term `T` is a comma-joined string
whose second component is the blacklist flag "2", `lookup(T, exactMode)`
resolves immediately with an empty result: zero fetches, zero IndexedDB
reads, no backoff, no error, and the program state untouched. -/
theorem c8_blacklist_short_circuit (prefs : String → Option String)
    (resp : Nat → FetchOutcome) (exactSearch : Bool) (T : String) (now : Nat)
    (st : PipeSt) (v : String)
    (h1 : prefs T = some v)
    (h2 : (jsSplitComma v).getD 1 "" = "2")
    (h3 : 1 < (jsSplitComma v).length) :
    getImmersionKitData prefs resp T exactSearch T now st =
      (Except.ok (), st, ⟨1, 0, 0, []⟩) := by
  have hne : v ≠ "" := by
    intro hv
    subst hv
    have he : jsSplitComma "" = [""] := rfl
    rw [he] at h3
    simp at h3
  have hbl : isBlacklistedVal (prefs T) = true := by
    rw [h1]
    simp only [isBlacklistedVal]
    rw [h2]
    have e1 : (v != "") = true := by simpa using hne
    have e2 : decide (1 < (jsSplitComma v).length) = true := decide_eq_true h3
    rw [e1, e2]
    decide
  simp [getImmersionKitData, hbl]

/-- C8, witness: the short-circuit on a concrete blacklisted term. -/
theorem c8_blacklist_short_circuit_witness :
    getImmersionKitData prefsBlacklist respAllBlank "ねこです" true "ねこです" 5 st0 =
      (Except.ok (), st0, ⟨1, 0, 0, []⟩) :=
  c8_blacklist_short_circuit prefsBlacklist respAllBlank true "ねこです" 5 st0
    "ねこです,2" rfl (by decide) (by decide)

/-! ## Step lemmas for the retry loop -/

/-- Unfolding of one `fetchData` iteration that misses the cache, gets a
2xx response with a parsed body, and fails validation below the retry
bound: it sleeps 2000 ms and its result is exactly the recursive call's
(`return fetchData()` without `await` adopts the recursive promise, so
nothing is added on unwinding). -/
theorem fetchDataFuel_step_invalid (resp : Nat → FetchOutcome) (sv : String)
    (now : Nat) (fuel attempt : Nat) (st : PipeSt) (tr : Trace)
    (s : Nat) (b : Option Payload) (r : String)
    (hmiss : dbFind st.db sv = none)
    (hres : resp tr.fetches = FetchOutcome.httpResp s (JsonBody.parsed b))
    (hok : respOk s = true)
    (hval : validateApiResponse b = some r)
    (hatt : attempt + 1 < maxRetries) :
    fetchDataFuel resp sv now (fuel + 1) attempt st tr =
      fetchDataFuel resp sv now fuel (attempt + 1)
        { st with error := false }
        { tr with dbReads := tr.dbReads + 1, fetches := tr.fetches + 1,
                  sleeps := tr.sleeps ++ [2000] } := by
  conv_lhs => rw [fetchDataFuel]
  simp only [dbGet_not_found st.db sv now hmiss, hmiss, Option.isSome_none,
    Option.none_bind, hres, hok, hval, Bool.not_true, Bool.false_eq_true,
    if_false, if_pos hatt]

/-- Unfolding of the final `fetchData` iteration: cache miss, 2xx parsed
response, validation failure with the retry bound reached — the call
rejects with the exhaustion message wrapped once by the inner catch, and
the outer catch sets the error flag. -/
theorem fetchDataFuel_step_exhaust (resp : Nat → FetchOutcome) (sv : String)
    (now : Nat) (fuel attempt : Nat) (st : PipeSt) (tr : Trace)
    (s : Nat) (b : Option Payload) (r : String)
    (hmiss : dbFind st.db sv = none)
    (hres : resp tr.fetches = FetchOutcome.httpResp s (JsonBody.parsed b))
    (hok : respOk s = true)
    (hval : validateApiResponse b = some r)
    (hatt : ¬ (attempt + 1 < maxRetries)) :
    fetchDataFuel resp sv now fuel attempt st tr =
      (Except.error ("Fetch error: " ++ ("Invalid API response after " ++
         toString maxRetries ++ " attempts: " ++ r)),
       { st with error := true },
       { tr with dbReads := tr.dbReads + 1, fetches := tr.fetches + 1 }) := by
  conv_lhs => rw [fetchDataFuel]
  simp only [dbGet_not_found st.db sv now hmiss, hmiss, Option.isSome_none,
    Option.none_bind, hres, hok, hval, Bool.not_true, Bool.false_eq_true,
    if_false, if_neg hatt]

/-- Unfolding of a `fetchData` iteration that misses the cache and whose
fetch fails at the transport layer (rejected fetch, non-2xx status, or
malformed body): the call rejects immediately with the failure message
wrapped once; nothing is retried. -/
theorem fetchDataFuel_step_fail (resp : Nat → FetchOutcome) (sv : String)
    (now : Nat) (fuel attempt : Nat) (st : PipeSt) (tr : Trace) (m : String)
    (hmiss : dbFind st.db sv = none)
    (hfail : transportFailBase (resp tr.fetches) = some m) :
    fetchDataFuel resp sv now fuel attempt st tr =
      (Except.error ("Fetch error: " ++ m), { st with error := true },
       { tr with dbReads := tr.dbReads + 1, fetches := tr.fetches + 1 }) := by
  have hg : dbGet st.db sv now = (st.db, none) := dbGet_not_found st.db sv now hmiss
  conv_lhs => rw [fetchDataFuel]
  cases hres : resp tr.fetches with
  | netError m2 =>
    rw [hres] at hfail
    simp only [transportFailBase, Option.some.injEq] at hfail
    subst hfail
    simp [hg, hmiss]
  | httpResp s body =>
    rw [hres] at hfail
    by_cases hok : respOk s = true
    · cases body with
      | parseError m2 =>
        simp only [transportFailBase, hok, if_true, Option.some.injEq] at hfail
        subst hfail
        simp [hg, hmiss, hok]
      | parsed jd =>
        simp [transportFailBase, hok] at hfail
    · have hok2 : respOk s = false := by simpa using hok
      simp only [transportFailBase, hok2, Bool.false_eq_true, if_false,
        Option.some.injEq] at hfail
      subst hfail
      simp [hg, hmiss, hok2]

/-- The all-invalid retry loop: starting at `attempt` with `f + 1`
remaining attempts (`attempt + f + 1 = maxRetries`), a source whose every
parsed response fails validation produces `f + 1` fetches with a 2000 ms
sleep between consecutive ones, and rejects with the exhaustion message
for the last attempt's reason, wrapped exactly once (by the inner catch
of the innermost call; the enclosing calls adopt the rejection
unchanged). -/
theorem fetchDataFuel_all_invalid (resp : Nat → FetchOutcome) (sv : String)
    (now : Nat) (status : Nat → Nat) (body : Nat → Option Payload)
    (reason : Nat → String)
    (hresp : ∀ n, resp n = FetchOutcome.httpResp (status n)
        (JsonBody.parsed (body n)))
    (hok : ∀ n, respOk (status n) = true)
    (hval : ∀ n, validateApiResponse (body n) = some (reason n)) :
    ∀ (f attempt : Nat) (st : PipeSt) (tr : Trace),
      dbFind st.db sv = none →
      attempt + f + 1 = maxRetries →
      fetchDataFuel resp sv now (f + 1) attempt st tr =
        (Except.error ("Fetch error: " ++ ("Invalid API response after " ++
           toString maxRetries ++ " attempts: " ++ reason (tr.fetches + f))),
         { st with error := true },
         { tr with dbReads := tr.dbReads + (f + 1),
                   fetches := tr.fetches + (f + 1),
                   sleeps := tr.sleeps ++ List.replicate f 2000 }) := by
  intro f
  induction f with
  | zero =>
    intro attempt st tr hmiss hsum
    have hatt : ¬ (attempt + 1 < maxRetries) := by omega
    rw [fetchDataFuel_step_exhaust resp sv now 1 attempt st tr
      (status tr.fetches) (body tr.fetches) (reason tr.fetches) hmiss
      (hresp tr.fetches) (hok tr.fetches) (hval tr.fetches) hatt]
    simp
  | succ f ih =>
    intro attempt st tr hmiss hsum
    have hatt : attempt + 1 < maxRetries := by omega
    rw [fetchDataFuel_step_invalid resp sv now (f + 1) attempt st tr
      (status tr.fetches) (body tr.fetches) (reason tr.fetches) hmiss
      (hresp tr.fetches) (hok tr.fetches) (hval tr.fetches) hatt]
    rw [ih (attempt + 1) { st with error := false }
      { tr with dbReads := tr.dbReads + 1, fetches := tr.fetches + 1,
                sleeps := tr.sleeps ++ [2000] } hmiss (by omega)]
    have e1 : tr.fetches + 1 + f = tr.fetches + (f + 1) := by omega
    have e2 : tr.dbReads + 1 + (f + 1) = tr.dbReads + (f + 1 + 1) := by omega
    have e3 : tr.fetches + 1 + (f + 1) = tr.fetches + (f + 1 + 1) := by omega
    have e4 : (tr.sleeps ++ [2000]) ++ List.replicate f 2000 =
        tr.sleeps ++ List.replicate (f + 1) 2000 := by
      rw [List.append_assoc]
      congr 1
    simp only [e1, e2, e3, e4]

/-- C1: against a remote source whose payload fails validation on every
attempt, a non-blacklisted lookup that misses the cache performs exactly
5 fetches with a 2000 ms wait between consecutive attempts (4 waits), and
rejects with the exhaustion message carrying the last attempt's
validation reason (`Invalid API response after 5 attempts: <reason>`,
wrapped exactly once as `Fetch error: ...` by the inner catch of the
call in which the bound is reached — the enclosing calls adopt the
rejection unchanged because `return fetchData()` is not awaited); the
shared error flag ends set. -/
theorem c1_retry_bound (prefs : String → Option String)
    (resp : Nat → FetchOutcome) (vocab : String) (exactSearch : Bool)
    (T : String) (now : Nat) (st : PipeSt) (status : Nat → Nat)
    (body : Nat → Option Payload) (reason : Nat → String)
    (hbl : isBlacklistedVal (prefs T) = false)
    (hmiss : dbFind st.db (searchKey vocab exactSearch) = none)
    (hresp : ∀ n, resp n = FetchOutcome.httpResp (status n)
        (JsonBody.parsed (body n)))
    (hok : ∀ n, respOk (status n) = true)
    (hval : ∀ n, validateApiResponse (body n) = some (reason n)) :
    getImmersionKitData prefs resp vocab exactSearch T now st =
      (Except.error ("Fetch error: " ++ ("Invalid API response after " ++
         toString maxRetries ++ " attempts: " ++ reason 4)),
       { st with error := true },
       ⟨1, 5, 5, [2000, 2000, 2000, 2000]⟩) := by
  simp only [getImmersionKitData, hbl, Bool.false_eq_true, if_false]
  have h := fetchDataFuel_all_invalid resp (searchKey vocab exactSearch) now
    status body reason hresp hok hval 4 0 st ⟨1, 0, 0, []⟩ hmiss (by decide)
  simpa [List.replicate] using h

/-- C1, witness: the concrete always-blank source exhausts the retry
budget. -/
theorem c1_retry_bound_witness :
    getImmersionKitData prefsEmpty respAllBlank "猫" false "猫" 0 st0 =
      (Except.error ("Fetch error: " ++ ("Invalid API response after " ++
         toString maxRetries ++ " attempts: " ++ "Blank API")),
       { st0 with error := true },
       ⟨1, 5, 5, [2000, 2000, 2000, 2000]⟩) :=
  c1_retry_bound prefsEmpty respAllBlank "猫" false "猫" 0 st0
    (fun _ => 200) (fun _ => some pBlankC) (fun _ => "Blank API")
    rfl rfl (fun _ => rfl) (fun _ => rfl) (fun _ => rfl)

/-- The retry loop hitting a transport-layer failure after `j` validation
retries: `j + 1` fetches in total, no fetch after the failure, the `j`
backoff sleeps from the earlier validation failures, and an immediate
rejection with the failure message wrapped exactly once (by the inner
catch of the failing call; earlier iterations adopt the rejection
unchanged). -/
theorem fetchDataFuel_fail_after_invalid (resp : Nat → FetchOutcome)
    (sv : String) (now : Nat) (m : String) :
    ∀ (j fuel attempt : Nat) (st : PipeSt) (tr : Trace),
      dbFind st.db sv = none →
      (∀ i, i < j → ∃ s b r,
        resp (tr.fetches + i) = FetchOutcome.httpResp s (JsonBody.parsed b) ∧
        respOk s = true ∧ validateApiResponse b = some r) →
      transportFailBase (resp (tr.fetches + j)) = some m →
      attempt + j < maxRetries →
      j ≤ fuel →
      fetchDataFuel resp sv now fuel attempt st tr =
        (Except.error ("Fetch error: " ++ m), { st with error := true },
         { tr with dbReads := tr.dbReads + (j + 1),
                   fetches := tr.fetches + (j + 1),
                   sleeps := tr.sleeps ++ List.replicate j 2000 }) := by
  intro j
  induction j with
  | zero =>
    intro fuel attempt st tr hmiss hbad hfail hatt hfuel
    rw [fetchDataFuel_step_fail resp sv now fuel attempt st tr m hmiss
      (by simpa using hfail)]
    simp
  | succ j ih =>
    intro fuel attempt st tr hmiss hbad hfail hatt hfuel
    obtain ⟨s, b, r, hres0, hok0, hval0⟩ := hbad 0 (by omega)
    rw [Nat.add_zero] at hres0
    cases fuel with
    | zero => omega
    | succ f =>
      rw [fetchDataFuel_step_invalid resp sv now f attempt st tr s b r hmiss
        hres0 hok0 hval0 (by omega)]
      rw [ih f (attempt + 1) { st with error := false }
        { tr with dbReads := tr.dbReads + 1, fetches := tr.fetches + 1,
                  sleeps := tr.sleeps ++ [2000] } hmiss
        (fun i hi => by
          have e : tr.fetches + 1 + i = tr.fetches + (i + 1) := by omega
          rw [e]
          exact hbad (i + 1) (by omega))
        (by
          have e : tr.fetches + 1 + j = tr.fetches + (j + 1) := by omega
          rw [e]
          exact hfail)
        (by omega) (by omega)]
      have e2 : tr.dbReads + 1 + (j + 1) = tr.dbReads + (j + 1 + 1) := by omega
      have e3 : tr.fetches + 1 + (j + 1) = tr.fetches + (j + 1 + 1) := by omega
      have e4 : (tr.sleeps ++ [2000]) ++ List.replicate j 2000 =
          tr.sleeps ++ List.replicate (j + 1) 2000 := by
        rw [List.append_assoc]
        congr 1
      simp only [e2, e3, e4]

/-- C9: if the `j`-th fetch of a lookup (counting from 0, after `j`
validation-failure retries, `j` possibly 0) fails at the transport layer
— rejected fetch, non-2xx status, or malformed body — the pipeline makes
no further fetch attempt and rejects immediately: exactly `j + 1` fetches
happen, only the `j` earlier backoff waits occur, and the rejection is
the transport failure message wrapped exactly once (`Fetch error: ...`,
by the inner catch of the failing call; the earlier iterations adopt the
rejection unchanged because `return fetchData()` is not awaited). -/
theorem c9_transport_no_retry (prefs : String → Option String)
    (resp : Nat → FetchOutcome) (vocab : String) (exactSearch : Bool)
    (T : String) (now : Nat) (st : PipeSt) (j : Nat) (m : String)
    (hbl : isBlacklistedVal (prefs T) = false)
    (hmiss : dbFind st.db (searchKey vocab exactSearch) = none)
    (hbad : ∀ i, i < j → ∃ s b r,
      resp i = FetchOutcome.httpResp s (JsonBody.parsed b) ∧
      respOk s = true ∧ validateApiResponse b = some r)
    (hfail : transportFailBase (resp j) = some m)
    (hj : j < maxRetries) :
    getImmersionKitData prefs resp vocab exactSearch T now st =
      (Except.error ("Fetch error: " ++ m), { st with error := true },
       ⟨1, j + 1, j + 1, List.replicate j 2000⟩) := by
  simp only [getImmersionKitData, hbl, Bool.false_eq_true, if_false]
  have h := fetchDataFuel_fail_after_invalid resp (searchKey vocab exactSearch)
    now m j maxRetries 0 st ⟨1, 0, 0, []⟩ hmiss
    (fun i hi => by rw [Nat.zero_add]; exact hbad i hi)
    (by rw [Nat.zero_add]; exact hfail)
    (by omega) (by omega)
  simpa using h

/-- C9, witness: first response fails validation, the second fetch
rejects at the network layer; the lookup stops after 2 fetches. -/
theorem c9_transport_no_retry_witness :
    getImmersionKitData prefsEmpty respFailAt1 "犬" false "犬" 3 st0 =
      (Except.error ("Fetch error: " ++ "boom"), { st0 with error := true },
       ⟨1, 2, 2, List.replicate 1 2000⟩) :=
  c9_transport_no_retry prefsEmpty respFailAt1 "犬" false "犬" 3 st0 1 "boom"
    rfl rfl
    (fun i hi => by
      interval_cases i
      exact ⟨200, some pBlankC, "Blank API", rfl, rfl, rfl⟩)
    rfl (by decide)

/-! ## Claim theorem: findExampleBySentence never raises (C10) -/

/-- C10: `findExampleBySentence` never rejects: on every transport-layer
failure of its single fetch (rejected fetch, non-2xx status, malformed
body) it returns `null`, exactly as it does when the response holds at
most `occurrenceIndex` exact sentence matches. -/
theorem c10_findBySentence_total (resp : FetchOutcome) (sentence : String)
    (occurrenceIndex : Nat) :
    (∀ m, transportFailBase resp = some m →
      findExampleBySentence resp sentence occurrenceIndex = none) ∧
    (∀ s p items, resp = FetchOutcome.httpResp s (JsonBody.parsed (some p)) →
      respOk s = true → p.data = some items →
      (collectMatches items sentence).length ≤ occurrenceIndex →
      findExampleBySentence resp sentence occurrenceIndex = none) := by
  constructor
  · intro m hm
    cases resp with
    | netError m2 => rfl
    | httpResp s body =>
      by_cases hok : respOk s = true
      · cases body with
        | parseError m2 => simp [findExampleBySentence, hok]
        | parsed jd => simp [transportFailBase, hok] at hm
      · have hok2 : respOk s = false := by simpa using hok
        simp [findExampleBySentence, hok2]
  · rintro s p items rfl hok hd hlen
    simp only [findExampleBySentence, hok, Bool.not_true, Bool.false_eq_true,
      if_false, hd]
    rw [if_neg (by omega)]

/-- C10, witness: a rejected fetch yields `null`. -/
theorem c10_findBySentence_total_witness :
    findExampleBySentence (FetchOutcome.netError "down") "猫だ" 0 = none :=
  (c10_findBySentence_total (FetchOutcome.netError "down") "猫だ" 0).1
    "down" rfl

end IK
